import Mathlib

set_option maxHeartbeats 1000000
set_option maxRecDepth 8000

/-! Shallow embedding of the pickls configuration model (src/config.rs): the
configuration data types, the serde-derived decoding semantics over a generic
structured-document value, and the stated defaulting rules. -/

/-- A generic structured configuration document value (maps, sequences and
scalars of a self-describing input format), as consumed by the decoder. -/
inductive Value : Type where
  | null : Value
  | bool : Bool → Value
  | int : Int → Value
  | str : String → Value
  | arr : List Value → Value
  | obj : List (String × Value) → Value
deriving Repr

/-- Field lookup in a decoded map; the first binding for a key wins. -/
def getField : List (String × Value) → String → Option Value
  | [], _ => none
  | (k, v) :: rest, key => if k = key then some v else getField rest key

/-- A struct document must be a map. -/
def Value.asObj : Value → Option (List (String × Value))
  | .obj m => some m
  | _ => none

/-- Decode a Rust `String`. -/
def Value.asStr : Value → Option String
  | .str s => some s
  | _ => none

/-- Decode a Rust `bool`. -/
def Value.asBool : Value → Option Bool
  | .bool b => some b
  | _ => none

/-- Decode a `u64`, or a `usize` on 64-bit targets: a nonnegative integer
below `2 ^ 64` (`Int.ofNat n` is the nonnegative case). -/
def Value.asU64 : Value → Option Nat
  | .int (Int.ofNat n) => if n < 2 ^ 64 then some n else none
  | _ => none

/-- Decode an `isize` (64-bit targets): a signed 64-bit integer.
`Int.ofNat n` is in range iff `n < 2 ^ 63`; `Int.negSucc n` stands for
`-(n + 1)`, in range iff `n + 1 ≤ 2 ^ 63`, that is iff `n < 2 ^ 63`. -/
def Value.asIsize : Value → Option Int
  | .int (Int.ofNat n) => if n < 2 ^ 63 then some (Int.ofNat n) else none
  | .int (Int.negSucc n) => if n < 2 ^ 63 then some (Int.negSucc n) else none
  | _ => none

/-- Decode each element of a sequence in order; any element error fails the
whole sequence. -/
def decodeElems {α : Type} (dec : Value → Option α) : List Value → Option (List α)
  | [] => some []
  | v :: vs => (dec v).bind fun a => (decodeElems dec vs).map fun tl => a :: tl

/-- Decode a `Vec<T>` from a sequence. -/
def Value.asList {α : Type} (dec : Value → Option α) : Value → Option (List α)
  | .arr xs => decodeElems dec xs
  | _ => none

/-- Decode a `Vec<String>`. -/
def Value.asStrList : Value → Option (List String) :=
  Value.asList Value.asStr

/-- A struct field with no serde default: a missing field fails the decode. -/
def reqField {α : Type} (m : List (String × Value)) (key : String)
    (dec : Value → Option α) : Option α :=
  (getField m key).bind dec

/-- A struct field carrying a serde `default` attribute: a missing field
takes the default value instead of failing. -/
def defField {α : Type} (m : List (String × Value)) (key : String)
    (dec : Value → Option α) (d : α) : Option α :=
  match getField m key with
  | none => some d
  | some v => dec v

/-- Decode an `Option<T>` value: an explicit null is `none`, anything else
decodes as `T`. -/
def decOptVal {α : Type} (dec : Value → Option α) : Value → Option (Option α)
  | .null => some none
  | v => (dec v).map some

/-- A field of type `Option<T>`: a missing field or an explicit null decodes
to `none` without error. -/
def optField {α : Type} (m : List (String × Value)) (key : String)
    (dec : Value → Option α) : Option (Option α) :=
  match getField m key with
  | none => some none
  | some v => decOptVal dec v

/-- `const DEFAULT_CTAGS_TIMEOUT_MS: u64 = 500`. -/
def DEFAULT_CTAGS_TIMEOUT_MS : Nat := 500

/-- `fn default_ctags_timeout_ms() -> u64`. -/
def default_ctags_timeout_ms : Nat := DEFAULT_CTAGS_TIMEOUT_MS

/-- `fn default_false() -> bool`. -/
def default_false : Bool := false

/-- `fn default_true() -> bool`. -/
def default_true : Bool := true

/-- `fn default_openai_api_key_cmd() -> Vec<String>`. -/
def default_openai_api_key_cmd : List String :=
  ["sh", "-c", "echo $OPENAI_API_KEY"]

/-- `fn default_inline_assist_prompt_template() -> String`. -/
def default_inline_assist_prompt_template : String :=
  "I\x27m working within the \x7b\x7blanguage_id\x7d\x7d language. If I show you code below, then please rewrite it to make improvements as you see fit. If I show you a question or directive, write code to satisfy the question or directive. Never use markdown to format your response. For example, do not use triple backticks (\x60\x60\x60).\n\n\x7b\x7btext\x7d\x7d\n"

/-- `fn default_inline_assist_system_prompt() -> String`. -/
def default_inline_assist_system_prompt : String :=
  "You are an inline assistant for a code editor. Your response to user prompts will be used to replace code in the editor."

/-- `enum PicklsSymbolsSource`, sole variant renamed "universal-ctags". -/
inductive PicklsSymbolsSource : Type where
  | UniversalCtags : PicklsSymbolsSource
deriving Repr, DecidableEq

/-- `struct PicklsSymbolsConfig`. -/
structure PicklsSymbolsConfig where
  source : PicklsSymbolsSource
  ctags_timeout_ms : Nat
deriving Repr, DecidableEq

/-- `struct PicklsLinterConfig`. -/
structure PicklsLinterConfig where
  program : String
  args : List String
  use_stdin : Bool
  pattern : String
  filename_match : Option Nat
  line_match : Nat
  start_col_match : Option Nat
  end_col_match : Option Nat
  severity_match : Option Nat
  description_match : Option Int
  use_stderr : Bool
deriving Repr, DecidableEq

/-- `struct PicklsFormatterConfig`. -/
structure PicklsFormatterConfig where
  program : String
  args : List String
  use_stdin : Bool
  stderr_indicates_error : Bool
deriving Repr, DecidableEq

/-- `struct PicklsLanguageConfig`. -/
structure PicklsLanguageConfig where
  root_markers : List String
  linters : List PicklsLinterConfig
  formatters : List PicklsFormatterConfig
deriving Repr, DecidableEq

/-- `struct OllamaConfig`. -/
structure OllamaConfig where
  model : String
  api_address : String
deriving Repr, DecidableEq

/-- `enum PicklsAIProvider`, serde rename_all = "lowercase". -/
inductive PicklsAIProvider : Type where
  | OpenAI : PicklsAIProvider
  | Ollama : PicklsAIProvider
deriving Repr, DecidableEq

/-- `struct OpenAIConfig`. -/
structure OpenAIConfig where
  model : String
  api_key_cmd : List String
deriving Repr, DecidableEq

/-- `struct PicklsAIConfig`. -/
structure PicklsAIConfig where
  system_prompt : String
  inline_assist_provider : PicklsAIProvider
  inline_assist_prompt_template : String
  openai : Option OpenAIConfig
  ollama : Option OllamaConfig
deriving Repr, DecidableEq

/-- `struct PicklsConfig` (the `HashMap` of languages modelled as an
association list keyed by language identifier). -/
structure PicklsConfig where
  languages : List (String × PicklsLanguageConfig)
  symbols : Option PicklsSymbolsConfig
  ai : PicklsAIConfig
deriving Repr, DecidableEq

/-- The `#[default]` variant selected by std `derive(Default)`. -/
def PicklsAIProvider.default : PicklsAIProvider := PicklsAIProvider.OpenAI

/-- Rust `derive(Default)` for `PicklsAIConfig`: every field takes its type
default (empty strings, default provider variant, absent backend blocks).
The serde field-default functions play no part in this value. -/
def PicklsAIConfig.default : PicklsAIConfig :=
  { system_prompt := ""
    inline_assist_provider := PicklsAIProvider.default
    inline_assist_prompt_template := ""
    openai := none
    ollama := none }

/-- The hand-written `impl Default for OpenAIConfig`. -/
def OpenAIConfig.default : OpenAIConfig :=
  { model := "gpt-4o", api_key_cmd := default_openai_api_key_cmd }

/-- serde decode of `PicklsSymbolsSource`: a unit variant externally tagged
by its (renamed) name; any other tag is an error. -/
def decodePicklsSymbolsSource : Value → Option PicklsSymbolsSource
  | .str s =>
    if s = "universal-ctags" then some PicklsSymbolsSource.UniversalCtags
    else none
  | _ => none

/-- serde decode of `PicklsSymbolsConfig`: `source` required,
`ctags_timeout_ms` defaulted via `default_ctags_timeout_ms`. -/
def decodePicklsSymbolsConfig (v : Value) : Option PicklsSymbolsConfig :=
  v.asObj.bind fun m =>
    (reqField m "source" decodePicklsSymbolsSource).bind fun source =>
      (defField m "ctags_timeout_ms" Value.asU64 default_ctags_timeout_ms).bind
        fun t => some { source := source, ctags_timeout_ms := t }

/-- serde decode of `PicklsLinterConfig`: `args` defaults to `Vec::new`,
`use_stderr` defaults to `default_false`, option fields may be absent, every
other field is required. -/
def decodePicklsLinterConfig (v : Value) : Option PicklsLinterConfig :=
  v.asObj.bind fun m =>
    (reqField m "program" Value.asStr).bind fun program =>
      (defField m "args" Value.asStrList []).bind fun args =>
        (reqField m "use_stdin" Value.asBool).bind fun use_stdin =>
          (reqField m "pattern" Value.asStr).bind fun pattern =>
            (optField m "filename_match" Value.asU64).bind fun fm =>
              (reqField m "line_match" Value.asU64).bind fun lm =>
                (optField m "start_col_match" Value.asU64).bind fun scm =>
                  (optField m "end_col_match" Value.asU64).bind fun ecm =>
                    (optField m "severity_match" Value.asU64).bind fun sm =>
                      (optField m "description_match" Value.asIsize).bind fun dm =>
                        (defField m "use_stderr" Value.asBool default_false).bind fun stderr =>
                          some { program := program, args := args,
                                 use_stdin := use_stdin, pattern := pattern,
                                 filename_match := fm, line_match := lm,
                                 start_col_match := scm, end_col_match := ecm,
                                 severity_match := sm, description_match := dm,
                                 use_stderr := stderr }

/-- serde decode of `PicklsFormatterConfig`: `program` and `args` required,
`use_stdin` defaults to `default_true`, `stderr_indicates_error` to
`default_false`. -/
def decodePicklsFormatterConfig (v : Value) : Option PicklsFormatterConfig :=
  v.asObj.bind fun m =>
    (reqField m "program" Value.asStr).bind fun program =>
      (reqField m "args" Value.asStrList).bind fun args =>
        (defField m "use_stdin" Value.asBool default_true).bind fun use_stdin =>
          (defField m "stderr_indicates_error" Value.asBool default_false).bind
            fun sie =>
              some { program := program, args := args, use_stdin := use_stdin,
                     stderr_indicates_error := sie }

/-- serde decode of `PicklsLanguageConfig`: all three sequences default to
empty when absent. -/
def decodePicklsLanguageConfig (v : Value) : Option PicklsLanguageConfig :=
  v.asObj.bind fun m =>
    (defField m "root_markers" Value.asStrList []).bind fun rms =>
      (defField m "linters" (Value.asList decodePicklsLinterConfig) []).bind fun ls =>
        (defField m "formatters" (Value.asList decodePicklsFormatterConfig) []).bind
          fun fs =>
            some { root_markers := rms, linters := ls, formatters := fs }

/-- serde decode of the entries of `HashMap<String, PicklsLanguageConfig>`:
each map value decodes as a language block, keyed by the language name. -/
def decodeLanguageEntries : List (String × Value) → Option (List (String × PicklsLanguageConfig))
  | [] => some []
  | (k, v) :: rest =>
    (decodePicklsLanguageConfig v).bind fun lc =>
      (decodeLanguageEntries rest).map fun tl => (k, lc) :: tl

/-- serde decode of `HashMap<String, PicklsLanguageConfig>`. -/
def decodeLanguages : Value → Option (List (String × PicklsLanguageConfig))
  | .obj m => decodeLanguageEntries m
  | _ => none

/-- serde decode of `PicklsAIProvider` with `rename_all = "lowercase"`:
only the tags "openai" and "ollama" are accepted. -/
def decodePicklsAIProvider : Value → Option PicklsAIProvider
  | .str s =>
    if s = "openai" then some PicklsAIProvider.OpenAI
    else if s = "ollama" then some PicklsAIProvider.Ollama
    else none
  | _ => none

/-- serde decode of `OpenAIConfig`: `model` required (the hand-written
`Default` impl is not consulted during decoding), `api_key_cmd` defaulted. -/
def decodeOpenAIConfig (v : Value) : Option OpenAIConfig :=
  v.asObj.bind fun m =>
    (reqField m "model" Value.asStr).bind fun model =>
      (defField m "api_key_cmd" Value.asStrList default_openai_api_key_cmd).bind
        fun cmd => some { model := model, api_key_cmd := cmd }

/-- serde decode of `OllamaConfig`: `model` and `api_address` both required. -/
def decodeOllamaConfig (v : Value) : Option OllamaConfig :=
  v.asObj.bind fun m =>
    (reqField m "model" Value.asStr).bind fun model =>
      (reqField m "api_address" Value.asStr).bind fun addr =>
        some { model := model, api_address := addr }

/-- serde decode of `PicklsAIConfig`: the prompt fields carry serde default
functions, `inline_assist_provider` is required (no serde default attribute),
the backend blocks are `Option` fields. -/
def decodePicklsAIConfig (v : Value) : Option PicklsAIConfig :=
  v.asObj.bind fun m =>
    (defField m "system_prompt" Value.asStr default_inline_assist_system_prompt).bind
      fun sp =>
        (reqField m "inline_assist_provider" decodePicklsAIProvider).bind fun prov =>
          (defField m "inline_assist_prompt_template" Value.asStr
              default_inline_assist_prompt_template).bind fun tmpl =>
            (optField m "openai" decodeOpenAIConfig).bind fun oa =>
              (optField m "ollama" decodeOllamaConfig).bind fun ol =>
                some { system_prompt := sp, inline_assist_provider := prov,
                       inline_assist_prompt_template := tmpl,
                       openai := oa, ollama := ol }

/-- serde decode of the root `PicklsConfig`: `languages` defaults to the
empty map, `symbols` is optional, a missing `ai` section takes the derived
`Default` value of `PicklsAIConfig`; unknown keys are ignored. -/
def decodePicklsConfig (v : Value) : Option PicklsConfig :=
  v.asObj.bind fun m =>
    (defField m "languages" decodeLanguages []).bind fun langs =>
      (optField m "symbols" decodePicklsSymbolsConfig).bind fun syms =>
        (defField m "ai" decodePicklsAIConfig PicklsAIConfig.default).bind fun ai =>
          some { languages := langs, symbols := syms, ai := ai }

/-- Modelled from the spec: the repository derives only `Deserialize`; the
round-trip property of the spec needs an encoder, so encoding is modelled
from the spec as emission of every field of a resolved snapshot (`Option`
fields as null when absent). Numbers encode as integers. -/
def encOpt {α : Type} (enc : α → Value) : Option α → Value
  | none => Value.null
  | some a => enc a

/-- Modelled from the spec: encode a natural number field. -/
def encNat (n : Nat) : Value := Value.int (Int.ofNat n)

/-- Modelled from the spec: encode a `Vec<String>`. -/
def encStrList (xs : List String) : Value := Value.arr (xs.map Value.str)

/-- Modelled from the spec: encode the symbols source tag. -/
def encodePicklsSymbolsSource : PicklsSymbolsSource → Value
  | PicklsSymbolsSource.UniversalCtags => Value.str "universal-ctags"

/-- Modelled from the spec: encode a `PicklsSymbolsConfig`. -/
def encodePicklsSymbolsConfig (c : PicklsSymbolsConfig) : Value :=
  Value.obj [("source", encodePicklsSymbolsSource c.source),
             ("ctags_timeout_ms", encNat c.ctags_timeout_ms)]

/-- Modelled from the spec: encode a `PicklsLinterConfig`. -/
def encodePicklsLinterConfig (l : PicklsLinterConfig) : Value :=
  Value.obj [("program", Value.str l.program),
             ("args", encStrList l.args),
             ("use_stdin", Value.bool l.use_stdin),
             ("pattern", Value.str l.pattern),
             ("filename_match", encOpt encNat l.filename_match),
             ("line_match", encNat l.line_match),
             ("start_col_match", encOpt encNat l.start_col_match),
             ("end_col_match", encOpt encNat l.end_col_match),
             ("severity_match", encOpt encNat l.severity_match),
             ("description_match", encOpt Value.int l.description_match),
             ("use_stderr", Value.bool l.use_stderr)]

/-- Modelled from the spec: encode a `PicklsFormatterConfig`. -/
def encodePicklsFormatterConfig (f : PicklsFormatterConfig) : Value :=
  Value.obj [("program", Value.str f.program),
             ("args", encStrList f.args),
             ("use_stdin", Value.bool f.use_stdin),
             ("stderr_indicates_error", Value.bool f.stderr_indicates_error)]

/-- Modelled from the spec: encode a `PicklsLanguageConfig`. -/
def encodePicklsLanguageConfig (c : PicklsLanguageConfig) : Value :=
  Value.obj [("root_markers", encStrList c.root_markers),
             ("linters", Value.arr (c.linters.map encodePicklsLinterConfig)),
             ("formatters", Value.arr (c.formatters.map encodePicklsFormatterConfig))]

/-- Modelled from the spec: encode the AI provider tag. -/
def encodePicklsAIProvider : PicklsAIProvider → Value
  | PicklsAIProvider.OpenAI => Value.str "openai"
  | PicklsAIProvider.Ollama => Value.str "ollama"

/-- Modelled from the spec: encode an `OpenAIConfig`. -/
def encodeOpenAIConfig (c : OpenAIConfig) : Value :=
  Value.obj [("model", Value.str c.model),
             ("api_key_cmd", encStrList c.api_key_cmd)]

/-- Modelled from the spec: encode an `OllamaConfig`. -/
def encodeOllamaConfig (c : OllamaConfig) : Value :=
  Value.obj [("model", Value.str c.model),
             ("api_address", Value.str c.api_address)]

/-- Modelled from the spec: encode a `PicklsAIConfig`. -/
def encodePicklsAIConfig (a : PicklsAIConfig) : Value :=
  Value.obj [("system_prompt", Value.str a.system_prompt),
             ("inline_assist_provider", encodePicklsAIProvider a.inline_assist_provider),
             ("inline_assist_prompt_template", Value.str a.inline_assist_prompt_template),
             ("openai", encOpt encodeOpenAIConfig a.openai),
             ("ollama", encOpt encodeOllamaConfig a.ollama)]

/-- Modelled from the spec: encode a whole resolved `PicklsConfig`. -/
def encodePicklsConfig (c : PicklsConfig) : Value :=
  Value.obj [("languages",
              Value.obj (c.languages.map fun kv => (kv.1, encodePicklsLanguageConfig kv.2))),
             ("symbols", encOpt encodePicklsSymbolsConfig c.symbols),
             ("ai", encodePicklsAIConfig c.ai)]

/-- A `u64`/`usize` value is within the unsigned 64-bit range. -/
def natWFu64 (n : Nat) : Bool := decide (n < 2 ^ 64)

/-- An optional `usize` value is within range when present. -/
def optNatWF : Option Nat → Bool
  | none => true
  | some n => natWFu64 n

/-- An `isize` value is within the signed 64-bit range. -/
def intWFi64 (i : Int) : Bool := decide (-(2 ^ 63) ≤ i ∧ i < 2 ^ 63)

/-- An optional `isize` value is within range when present. -/
def optIntWF : Option Int → Bool
  | none => true
  | some i => intWFi64 i

/-- The machine-integer fields of a linter descriptor are within range, as
any decoded snapshot's fields are. -/
def linterWF (l : PicklsLinterConfig) : Bool :=
  optNatWF l.filename_match && natWFu64 l.line_match &&
    optNatWF l.start_col_match && optNatWF l.end_col_match &&
    optNatWF l.severity_match && optIntWF l.description_match

/-- The machine-integer fields of a language block are within range. -/
def languageWF (c : PicklsLanguageConfig) : Bool :=
  c.linters.all linterWF

/-- The machine-integer fields of an optional symbols block are within
range. -/
def optSymbolsWF : Option PicklsSymbolsConfig → Bool
  | none => true
  | some s => natWFu64 s.ctags_timeout_ms

/-- The machine-integer fields of a snapshot are within range: this holds of
every snapshot the decoder can produce. -/
def configWF (c : PicklsConfig) : Bool :=
  (c.languages.all fun kv => languageWF kv.2) && optSymbolsWF c.symbols

/-- A concrete linter document using the `-1` description sentinel. -/
def sentinelLinterDoc : Value :=
  Value.obj [("program", Value.str "flake8"),
             ("use_stdin", Value.bool false),
             ("pattern", Value.str "^(.*):(\\d+): (.*)$"),
             ("line_match", Value.int 2),
             ("description_match", Value.int (-1))]

/-- A concrete fully-populated snapshot exercising every block. -/
def sampleConfig : PicklsConfig :=
  { languages := [("python",
      { root_markers := ["pyproject.toml"],
        linters := [{ program := "flake8",
                      args := ["--max-line-length", "100"],
                      use_stdin := true,
                      pattern := "^(.*):(\\d+): (.*)$",
                      filename_match := some 1,
                      line_match := 2,
                      start_col_match := none,
                      end_col_match := none,
                      severity_match := none,
                      description_match := some (-1),
                      use_stderr := false }],
        formatters := [{ program := "black",
                         args := ["-"],
                         use_stdin := true,
                         stderr_indicates_error := false }] })],
    symbols := some { source := PicklsSymbolsSource.UniversalCtags,
                      ctags_timeout_ms := 500 },
    ai := { system_prompt := "You are a robot.",
            inline_assist_provider := PicklsAIProvider.Ollama,
            inline_assist_prompt_template := "Rewrite: \x7b\x7btext\x7d\x7d",
            openai := some { model := "gpt-4o",
                             api_key_cmd := ["sh", "-c", "echo $OPENAI_API_KEY"] },
            ollama := some { model := "llama3.2",
                             api_address := "http://localhost:11434/api/generate" } } }

/-- A concrete symbols document omitting `ctags_timeout_ms`. -/
def sampleSymbolsDoc : List (String × Value) :=
  [("source", Value.str "universal-ctags")]

/-- A concrete linter document omitting `use_stderr` and `args`. -/
def sampleLinterDoc : List (String × Value) :=
  [("program", Value.str "flake8"),
   ("use_stdin", Value.bool true),
   ("pattern", Value.str "^(.*)$"),
   ("line_match", Value.int 1)]

/-- A concrete formatter document omitting `use_stdin`. -/
def sampleFormatterDoc : List (String × Value) :=
  [("program", Value.str "black"),
   ("args", Value.arr [Value.str "-"])]

/-- Binding a present option applies the continuation. -/
lemma bind_some_eq {α β : Type} (a : α) (f : α → Option β) :
    Option.bind (some a) f = f a := rfl

/-- Looking up the key at the head of a map. -/
lemma getField_cons_self (k : String) (v : Value) (m : List (String × Value)) :
    getField ((k, v) :: m) k = some v := by
  simp [getField]

/-- Looking up a key skips a head entry with a different key. -/
lemma getField_cons_ne (k key : String) (h : ¬k = key) (v : Value)
    (m : List (String × Value)) :
    getField ((k, v) :: m) key = getField m key := by
  simp [getField, h]

/-- A nonnegative 64-bit integer decodes to its underlying natural. -/
lemma asU64_ofNat (n : Nat) (h : n < 2 ^ 64) :
    Value.asU64 (Value.int (Int.ofNat n)) = some n := by
  simp only [Value.asU64]
  rw [if_pos h]

/-- The same fact stated through the standard coercion. -/
lemma asU64_natCast (n : Nat) (h : n < 2 ^ 64) :
    Value.asU64 (Value.int (n : Int)) = some n := asU64_ofNat n h

/-- Elementwise decoding inverts elementwise encoding. -/
lemma decodeElems_map {α : Type} (enc : α → Value) (dec : Value → Option α)
    (xs : List α) (h : ∀ a ∈ xs, dec (enc a) = some a) :
    decodeElems dec (xs.map enc) = some xs := by
  induction xs with
  | nil => rfl
  | cons a l ih =>
    rw [List.map_cons]
    show (dec (enc a)).bind _ = _
    rw [h a (List.mem_cons_self a l), bind_some_eq,
      ih fun b hb => h b (List.mem_cons_of_mem a hb)]
    rfl

/-- String sequences decode back to themselves. -/
lemma asStrList_enc (xs : List String) :
    Value.asStrList (encStrList xs) = some xs := by
  simp only [Value.asStrList, encStrList, Value.asList]
  exact decodeElems_map Value.str Value.asStr xs fun a _ => rfl

/-- An in-range optional `usize` decodes back to itself. -/
lemma decOptVal_usize (o : Option Nat) (h : optNatWF o = true) :
    decOptVal Value.asU64 (encOpt encNat o) = some o := by
  cases o with
  | none => rfl
  | some n =>
    simp only [optNatWF, natWFu64, decide_eq_true_eq] at h
    show (Value.asU64 (Value.int (Int.ofNat n))).map some = some (some n)
    rw [asU64_ofNat n h]
    rfl

/-- An in-range `isize` decodes back to itself. -/
lemma asIsize_int (i : Int) (h : intWFi64 i = true) :
    Value.asIsize (Value.int i) = some i := by
  simp only [intWFi64, decide_eq_true_eq] at h
  cases i with
  | ofNat n =>
    rw [Int.ofNat_eq_natCast] at h
    show Value.asIsize (Value.int (Int.ofNat n)) = some (Int.ofNat n)
    simp only [Value.asIsize]
    rw [if_pos (by omega : n < 2 ^ 63)]
  | negSucc n =>
    rw [Int.negSucc_eq] at h
    show Value.asIsize (Value.int (Int.negSucc n)) = some (Int.negSucc n)
    simp only [Value.asIsize]
    rw [if_pos (by omega : n < 2 ^ 63)]

/-- An in-range optional `isize` decodes back to itself. -/
lemma decOptVal_isize (o : Option Int) (h : optIntWF o = true) :
    decOptVal Value.asIsize (encOpt Value.int o) = some o := by
  cases o with
  | none => rfl
  | some i =>
    show (Value.asIsize (Value.int i)).map some = some (some i)
    rw [asIsize_int i h]
    rfl

/-- The symbols source tag survives a round trip. -/
lemma src_rt (s : PicklsSymbolsSource) :
    decodePicklsSymbolsSource (encodePicklsSymbolsSource s) = some s := by
  cases s
  rfl

/-- The AI provider tag survives a round trip. -/
lemma provider_rt (p : PicklsAIProvider) :
    decodePicklsAIProvider (encodePicklsAIProvider p) = some p := by
  cases p <;> rfl

/-- A well-formed symbols block survives a round trip. -/
lemma symbols_roundtrip (c : PicklsSymbolsConfig) (h : c.ctags_timeout_ms < 2 ^ 64) :
    decodePicklsSymbolsConfig (encodePicklsSymbolsConfig c) = some c := by
  simp only [decodePicklsSymbolsConfig, encodePicklsSymbolsConfig, encNat,
    Value.asObj, bind_some_eq, reqField, defField,
    getField_cons_self, getField_cons_ne "source" "ctags_timeout_ms" (by decide),
    src_rt, asU64_ofNat _ h]

/-- A well-formed linter descriptor survives a round trip. -/
lemma linter_roundtrip (l : PicklsLinterConfig) (h : linterWF l = true) :
    decodePicklsLinterConfig (encodePicklsLinterConfig l) = some l := by
  simp only [linterWF, Bool.and_eq_true] at h
  obtain ⟨⟨⟨⟨⟨h1, h2⟩, h3⟩, h4⟩, h5⟩, h6⟩ := h
  simp only [natWFu64, decide_eq_true_eq] at h2
  simp [decodePicklsLinterConfig, encodePicklsLinterConfig,
    Value.asObj, bind_some_eq, reqField, defField, optField,
    getField_cons_self, getField_cons_ne,
    Value.asStr, Value.asBool, asStrList_enc, encNat,
    asU64_ofNat _ h2, asU64_natCast _ h2,
    decOptVal_usize _ h1, decOptVal_usize _ h3, decOptVal_usize _ h4,
    decOptVal_usize _ h5, decOptVal_isize _ h6]

/-- A formatter descriptor survives a round trip. -/
lemma formatter_roundtrip (f : PicklsFormatterConfig) :
    decodePicklsFormatterConfig (encodePicklsFormatterConfig f) = some f := by
  simp [decodePicklsFormatterConfig, encodePicklsFormatterConfig,
    Value.asObj, bind_some_eq, reqField, defField,
    getField_cons_self, getField_cons_ne,
    Value.asStr, Value.asBool, asStrList_enc]

/-- A well-formed language block survives a round trip. -/
lemma language_roundtrip (c : PicklsLanguageConfig) (h : languageWF c = true) :
    decodePicklsLanguageConfig (encodePicklsLanguageConfig c) = some c := by
  simp only [languageWF, List.all_eq_true] at h
  simp [decodePicklsLanguageConfig, encodePicklsLanguageConfig, Value.asObj,
    bind_some_eq, defField, getField_cons_self, getField_cons_ne,
    asStrList_enc, Value.asList,
    decodeElems_map encodePicklsLinterConfig decodePicklsLinterConfig c.linters
      fun l hl => linter_roundtrip l (h l hl),
    decodeElems_map encodePicklsFormatterConfig decodePicklsFormatterConfig
      c.formatters fun f _ => formatter_roundtrip f]

/-- Well-formed language map entries survive a round trip. -/
lemma languageEntries_roundtrip (ls : List (String × PicklsLanguageConfig))
    (h : ∀ kv ∈ ls, languageWF kv.2 = true) :
    decodeLanguageEntries (ls.map fun kv => (kv.1, encodePicklsLanguageConfig kv.2)) =
      some ls := by
  induction ls with
  | nil => rfl
  | cons kv tl ih =>
    rw [List.map_cons]
    show (decodePicklsLanguageConfig (encodePicklsLanguageConfig kv.2)).bind _ = _
    rw [language_roundtrip kv.2 (h kv (List.mem_cons_self kv tl)), bind_some_eq,
      ih fun b hb => h b (List.mem_cons_of_mem kv hb)]
    rfl

/-- An OpenAI backend block survives a round trip. -/
lemma openai_roundtrip (c : OpenAIConfig) :
    decodeOpenAIConfig (encodeOpenAIConfig c) = some c := by
  simp [decodeOpenAIConfig, encodeOpenAIConfig, Value.asObj, bind_some_eq,
    reqField, defField, getField_cons_self, getField_cons_ne,
    Value.asStr, asStrList_enc]

/-- An Ollama backend block survives a round trip. -/
lemma ollama_roundtrip (c : OllamaConfig) :
    decodeOllamaConfig (encodeOllamaConfig c) = some c := by
  simp [decodeOllamaConfig, encodeOllamaConfig, Value.asObj, bind_some_eq,
    reqField, getField_cons_self, getField_cons_ne, Value.asStr]

/-- An optional OpenAI block survives a round trip. -/
lemma decOptVal_openai (o : Option OpenAIConfig) :
    decOptVal decodeOpenAIConfig (encOpt encodeOpenAIConfig o) = some o := by
  cases o with
  | none => rfl
  | some c =>
    show (decodeOpenAIConfig (encodeOpenAIConfig c)).map some = some (some c)
    rw [openai_roundtrip c]
    rfl

/-- An optional Ollama block survives a round trip. -/
lemma decOptVal_ollama (o : Option OllamaConfig) :
    decOptVal decodeOllamaConfig (encOpt encodeOllamaConfig o) = some o := by
  cases o with
  | none => rfl
  | some c =>
    show (decodeOllamaConfig (encodeOllamaConfig c)).map some = some (some c)
    rw [ollama_roundtrip c]
    rfl

/-- An optional well-formed symbols block survives a round trip. -/
lemma decOptVal_symbols (o : Option PicklsSymbolsConfig)
    (h : optSymbolsWF o = true) :
    decOptVal decodePicklsSymbolsConfig (encOpt encodePicklsSymbolsConfig o) =
      some o := by
  cases o with
  | none => rfl
  | some s =>
    simp only [optSymbolsWF, natWFu64, decide_eq_true_eq] at h
    show (decodePicklsSymbolsConfig (encodePicklsSymbolsConfig s)).map some =
      some (some s)
    rw [symbols_roundtrip s h]
    rfl

/-- An AI section survives a round trip. -/
lemma ai_roundtrip (a : PicklsAIConfig) :
    decodePicklsAIConfig (encodePicklsAIConfig a) = some a := by
  simp [decodePicklsAIConfig, encodePicklsAIConfig, Value.asObj, bind_some_eq,
    reqField, defField, optField, getField_cons_self, getField_cons_ne,
    Value.asStr, provider_rt, decOptVal_openai, decOptVal_ollama]

/-- A well-formed snapshot survives a round trip through the encoder. -/
lemma config_roundtrip (c : PicklsConfig) (h : configWF c = true) :
    decodePicklsConfig (encodePicklsConfig c) = some c := by
  simp only [configWF, Bool.and_eq_true, List.all_eq_true] at h
  obtain ⟨h1, h2⟩ := h
  simp [decodePicklsConfig, encodePicklsConfig, Value.asObj, bind_some_eq,
    defField, optField, getField_cons_self, getField_cons_ne, decodeLanguages,
    languageEntries_roundtrip c.languages h1, decOptVal_symbols c.symbols h2,
    ai_roundtrip]

/-- A bind whose continuation always fails, fails. -/
lemma bind_const_none {α β : Type} (x : Option α) :
    (x.bind fun _ => (none : Option β)) = none := by
  cases x <;> rfl

/-- Decoding an optional value that is a map applies the block decoder. -/
lemma decOptVal_obj {α : Type} (dec : Value → Option α) (m : List (String × Value)) :
    decOptVal dec (Value.obj m) = (dec (Value.obj m)).map some := rfl

/-- C1: with the `ai` section omitted entirely, decoding succeeds and yields
the derived-`Default` AI block: the hosted provider and no `openai` block as
the claim states, but `system_prompt` and `inline_assist_prompt_template`
resolve to empty strings, not to the documented default prompt texts. -/
theorem spec_claim_c1_ai_omitted_prompts_empty :
    decodePicklsConfig (Value.obj []) =
      some { languages := [], symbols := none,
             ai := { system_prompt := "",
                     inline_assist_provider := PicklsAIProvider.OpenAI,
                     inline_assist_prompt_template := "",
                     openai := none, ollama := none } }
    ∧ ¬"" = default_inline_assist_system_prompt
    ∧ ¬"" = default_inline_assist_prompt_template :=
  ⟨rfl, by decide, by decide⟩

/-- C2 counterexample: a document whose `ollama` block is present with
`api_address` but no `model` fails the whole decode, refuting the claim that
such a document decodes successfully. -/
theorem spec_claim_c2_counterexample :
    decodePicklsConfig (Value.obj [("ai", Value.obj
      [("inline_assist_provider", Value.str "ollama"),
       ("ollama", Value.obj [("api_address",
          Value.str "http://localhost:11434/api/generate")])])]) = none := rfl

/-- C2 (amended): a present `ollama` block with `model` unset fails the
decode with a missing-field error; only omitting the block entirely
succeeds, yielding `ollama = none` in the snapshot. -/
theorem spec_claim_c2_ollama_model_required :
    (∀ m : List (String × Value), getField m "model" = none →
      decodeOllamaConfig (Value.obj m) = none)
    ∧ (∀ (m : List (String × Value)) (c : PicklsAIConfig),
      getField m "ollama" = none →
      decodePicklsAIConfig (Value.obj m) = some c → c.ollama = none) := by
  constructor
  · intro m h
    simp [decodeOllamaConfig, Value.asObj, bind_some_eq, reqField, h]
  · intro m c h hdec
    simp only [decodePicklsAIConfig, Value.asObj, bind_some_eq, optField, h,
      Option.bind_eq_some] at hdec
    obtain ⟨sp, -, prov, -, tmpl, -, oa, -, hfin⟩ := hdec
    cases hfin
    rfl

/-- C2 witness: the amended theorem applied at an empty `ollama` block and at
an `ai` section without an `ollama` block. -/
theorem spec_claim_c2_witness :
    decodeOllamaConfig (Value.obj []) = none
    ∧ ({ system_prompt := default_inline_assist_system_prompt,
         inline_assist_provider := PicklsAIProvider.OpenAI,
         inline_assist_prompt_template := default_inline_assist_prompt_template,
         openai := none, ollama := none } : PicklsAIConfig).ollama = none :=
  ⟨spec_claim_c2_ollama_model_required.1 [] rfl,
   spec_claim_c2_ollama_model_required.2
     [("inline_assist_provider", Value.str "openai")] _ rfl rfl⟩

/-- C3 counterexample: a document whose `openai` block is present but omits
`model` fails the whole decode, refuting the claim that it decodes with
`model = "gpt-4o"`. -/
theorem spec_claim_c3_counterexample :
    decodePicklsConfig (Value.obj [("ai", Value.obj
      [("inline_assist_provider", Value.str "openai"),
       ("openai", Value.obj [])])]) = none := rfl

/-- C3 (amended): a present `openai` block omitting `model` fails the decode
with a missing-field error; "gpt-4o" is the model only of the
default-constructed `OpenAIConfig` value, which decoding never consults. -/
theorem spec_claim_c3_openai_model_required :
    (∀ m : List (String × Value), getField m "model" = none →
      decodeOpenAIConfig (Value.obj m) = none)
    ∧ OpenAIConfig.default.model = "gpt-4o" := by
  constructor
  · intro m h
    simp [decodeOpenAIConfig, Value.asObj, bind_some_eq, reqField, h]
  · rfl

/-- C3 witness: the amended theorem applied at an empty `openai` block. -/
theorem spec_claim_c3_witness :
    decodeOpenAIConfig (Value.obj []) = none
    ∧ OpenAIConfig.default.model = "gpt-4o" :=
  ⟨spec_claim_c3_openai_model_required.1 [] rfl,
   spec_claim_c3_openai_model_required.2⟩

/-- C4 counterexample: a document with an `ai` section that omits
`inline_assist_provider` fails the whole decode, refuting the claim that it
decodes with the hosted provider. -/
theorem spec_claim_c4_counterexample :
    decodePicklsConfig (Value.obj [("ai", Value.obj [])]) = none := rfl

/-- C4 (amended): an `ai` section present without `inline_assist_provider`
fails the decode with a missing-field error; the hosted provider is the
resolved provider only when the whole `ai` section is omitted, through the
derived `Default` value. -/
theorem spec_claim_c4_provider_required :
    (∀ m : List (String × Value), getField m "inline_assist_provider" = none →
      decodePicklsAIConfig (Value.obj m) = none)
    ∧ (∀ (doc : List (String × Value)) (c : PicklsConfig),
      getField doc "ai" = none → decodePicklsConfig (Value.obj doc) = some c →
      c.ai.inline_assist_provider = PicklsAIProvider.OpenAI) := by
  constructor
  · intro m h
    simp [decodePicklsAIConfig, Value.asObj, bind_some_eq, reqField, h,
      bind_const_none]
  · intro doc c h hdec
    simp only [decodePicklsConfig, Value.asObj, bind_some_eq, defField, h,
      Option.bind_eq_some] at hdec
    obtain ⟨L, -, S, -, hfin⟩ := hdec
    cases hfin
    rfl

/-- C4 witness: the amended theorem applied at an empty `ai` section and at
the empty document. -/
theorem spec_claim_c4_witness :
    decodePicklsAIConfig (Value.obj []) = none
    ∧ (PicklsConfig.mk [] none
        PicklsAIConfig.default).ai.inline_assist_provider =
      PicklsAIProvider.OpenAI :=
  ⟨spec_claim_c4_provider_required.1 [] rfl,
   spec_claim_c4_provider_required.2 [] _ rfl rfl⟩

/-- C5: the stated field-level defaults apply on absence: a present `symbols`
block without `ctags_timeout_ms` resolves it to 500, a linter descriptor
without `use_stderr` resolves it to false, and a formatter descriptor
without `use_stdin` resolves it to true. -/
theorem spec_claim_c5_field_defaults :
    (∀ (m : List (String × Value)) (c : PicklsSymbolsConfig),
      getField m "ctags_timeout_ms" = none →
      decodePicklsSymbolsConfig (Value.obj m) = some c → c.ctags_timeout_ms = 500)
    ∧ (∀ (m : List (String × Value)) (c : PicklsLinterConfig),
      getField m "use_stderr" = none →
      decodePicklsLinterConfig (Value.obj m) = some c → c.use_stderr = false)
    ∧ (∀ (m : List (String × Value)) (c : PicklsFormatterConfig),
      getField m "use_stdin" = none →
      decodePicklsFormatterConfig (Value.obj m) = some c → c.use_stdin = true) := by
  refine ⟨?_, ?_, ?_⟩
  · intro m c h hdec
    simp only [decodePicklsSymbolsConfig, Value.asObj, bind_some_eq, defField, h,
      Option.bind_eq_some] at hdec
    obtain ⟨src, -, hfin⟩ := hdec
    cases hfin
    rfl
  · intro m c h hdec
    simp only [decodePicklsLinterConfig, Value.asObj, bind_some_eq, defField, h,
      Option.bind_eq_some] at hdec
    obtain ⟨p, -, a, -, u, -, pat, -, fm, -, lm, -, scm, -, ecm, -, sm, -, dm, -,
      hfin⟩ := hdec
    cases hfin
    rfl
  · intro m c h hdec
    simp only [decodePicklsFormatterConfig, Value.asObj, bind_some_eq, defField, h,
      Option.bind_eq_some] at hdec
    obtain ⟨p, -, a, -, sie, -, hfin⟩ := hdec
    cases hfin
    rfl

/-- C5 witness: the defaults theorem applied at concrete documents omitting
each defaulted field. -/
theorem spec_claim_c5_witness :
    ({ source := PicklsSymbolsSource.UniversalCtags, ctags_timeout_ms := 500 } :
      PicklsSymbolsConfig).ctags_timeout_ms = 500
    ∧ ({ program := "flake8", args := [], use_stdin := true,
         pattern := "^(.*)$", filename_match := none, line_match := 1,
         start_col_match := none, end_col_match := none, severity_match := none,
         description_match := none, use_stderr := false } :
      PicklsLinterConfig).use_stderr = false
    ∧ ({ program := "black", args := ["-"], use_stdin := true,
         stderr_indicates_error := false } :
      PicklsFormatterConfig).use_stdin = true :=
  ⟨spec_claim_c5_field_defaults.1 sampleSymbolsDoc _ rfl rfl,
   spec_claim_c5_field_defaults.2.1 sampleLinterDoc _ rfl rfl,
   spec_claim_c5_field_defaults.2.2 sampleFormatterDoc _ rfl rfl⟩

/-- C6: an unrecognized `source` or `inline_assist_provider` tag fails the
decode of its block, and any failing `symbols` or `ai` block fails the whole
load, producing no snapshot. -/
theorem spec_claim_c6_unknown_tags_rejected :
    (∀ s : String, ¬s = "universal-ctags" →
      decodePicklsSymbolsSource (Value.str s) = none)
    ∧ (∀ s : String, ¬s = "openai" → ¬s = "ollama" →
      decodePicklsAIProvider (Value.str s) = none)
    ∧ (∀ (m : List (String × Value)) (s : String),
      getField m "source" = some (Value.str s) → ¬s = "universal-ctags" →
      decodePicklsSymbolsConfig (Value.obj m) = none)
    ∧ (∀ (doc m : List (String × Value)),
      getField doc "symbols" = some (Value.obj m) →
      decodePicklsSymbolsConfig (Value.obj m) = none →
      decodePicklsConfig (Value.obj doc) = none)
    ∧ (∀ (doc : List (String × Value)) (v : Value),
      getField doc "ai" = some v → decodePicklsAIConfig v = none →
      decodePicklsConfig (Value.obj doc) = none) := by
  refine ⟨?_, ?_, ?_, ?_, ?_⟩
  · intro s h
    simp [decodePicklsSymbolsSource, h]
  · intro s h1 h2
    simp [decodePicklsAIProvider, h1, h2]
  · intro m s hget hs
    simp [decodePicklsSymbolsConfig, Value.asObj, bind_some_eq, reqField, hget,
      decodePicklsSymbolsSource, hs]
  · intro doc m hget hdec
    simp [decodePicklsConfig, Value.asObj, bind_some_eq, optField, hget,
      decOptVal_obj, hdec, bind_const_none]
  · intro doc v hget hdec
    simp [decodePicklsConfig, Value.asObj, bind_some_eq, defField, hget, hdec,
      bind_const_none]

/-- C6 witness: the rejection theorem applied at concrete unknown tags and
at whole documents carrying them. -/
theorem spec_claim_c6_witness :
    decodePicklsSymbolsSource (Value.str "ctags") = none
    ∧ decodePicklsAIProvider (Value.str "mistral") = none
    ∧ decodePicklsSymbolsConfig (Value.obj [("source", Value.str "tags")]) = none
    ∧ decodePicklsConfig
        (Value.obj [("symbols", Value.obj [("source", Value.str "tags")])]) = none
    ∧ decodePicklsConfig (Value.obj [("ai", Value.null)]) = none :=
  ⟨spec_claim_c6_unknown_tags_rejected.1 "ctags" (by decide),
   spec_claim_c6_unknown_tags_rejected.2.1 "mistral" (by decide) (by decide),
   spec_claim_c6_unknown_tags_rejected.2.2.1 [("source", Value.str "tags")]
     "tags" rfl (by decide),
   spec_claim_c6_unknown_tags_rejected.2.2.2.1
     [("symbols", Value.obj [("source", Value.str "tags")])]
     [("source", Value.str "tags")] rfl rfl,
   spec_claim_c6_unknown_tags_rejected.2.2.2.2 [("ai", Value.null)] Value.null
     rfl rfl⟩

/-- C7: encoding a resolved snapshot and decoding the resulting document
yields the identical snapshot, for every snapshot whose machine-integer
fields are in range, as every decoded snapshot's are. -/
theorem spec_claim_c7_roundtrip (c : PicklsConfig) (h : configWF c = true) :
    decodePicklsConfig (encodePicklsConfig c) = some c :=
  config_roundtrip c h

/-- C7 witness: the round trip at a concrete fully-populated snapshot. -/
theorem spec_claim_c7_witness :
    configWF sampleConfig = true
    ∧ decodePicklsConfig (encodePicklsConfig sampleConfig) = some sampleConfig :=
  ⟨by decide, spec_claim_c7_roundtrip sampleConfig (by decide)⟩

/-- C8: a linter document with `description_match = -1` decodes successfully
to a descriptor whose `description_match` is the sentinel `some (-1)`,
distinct from `some k` for every positive index `k` and from `none`. -/
theorem spec_claim_c8_description_sentinel :
    decodePicklsLinterConfig sentinelLinterDoc = some
      { program := "flake8", args := [], use_stdin := false,
        pattern := "^(.*):(\\d+): (.*)$", filename_match := none,
        line_match := 2, start_col_match := none, end_col_match := none,
        severity_match := none, description_match := some (-1),
        use_stderr := false }
    ∧ (∀ k : Nat, ¬(some (-1) : Option Int) = some ((k : Int) + 1))
    ∧ ¬(some (-1) : Option Int) = (none : Option Int) := by
  refine ⟨rfl, ?_, by decide⟩
  intro k h
  rw [Option.some_inj] at h
  omega

/-- C9: a top-level key that is none of `languages`, `symbols`, `ai` is
ignored: adding it to a document changes nothing about the decode result, so
it neither fails the decode nor affects the resolved snapshot. -/
theorem spec_claim_c9_unknown_keys_ignored (k : String) (v : Value)
    (doc : List (String × Value)) (h1 : ¬k = "languages") (h2 : ¬k = "symbols")
    (h3 : ¬k = "ai") :
    decodePicklsConfig (Value.obj ((k, v) :: doc)) =
      decodePicklsConfig (Value.obj doc) := by
  simp only [decodePicklsConfig, Value.asObj, bind_some_eq, defField, optField,
    getField_cons_ne k "languages" h1, getField_cons_ne k "symbols" h2,
    getField_cons_ne k "ai" h3]

/-- C9 witness: an unknown key on the empty document. -/
theorem spec_claim_c9_witness :
    decodePicklsConfig (Value.obj [("bogus", Value.bool true)]) =
      decodePicklsConfig (Value.obj []) :=
  spec_claim_c9_unknown_keys_ignored "bogus" (Value.bool true) []
    (by decide) (by decide) (by decide)

/-- C10: the linter fields `program`, `use_stdin`, `pattern` and `line_match`
are required: omitting any of them fails the decode of the descriptor (and
with it the whole load), while omitting `args` succeeds and resolves to the
empty argument list. -/
theorem spec_claim_c10_linter_required_fields :
    (∀ m : List (String × Value), getField m "program" = none →
      decodePicklsLinterConfig (Value.obj m) = none)
    ∧ (∀ m : List (String × Value), getField m "use_stdin" = none →
      decodePicklsLinterConfig (Value.obj m) = none)
    ∧ (∀ m : List (String × Value), getField m "pattern" = none →
      decodePicklsLinterConfig (Value.obj m) = none)
    ∧ (∀ m : List (String × Value), getField m "line_match" = none →
      decodePicklsLinterConfig (Value.obj m) = none)
    ∧ (∀ (m : List (String × Value)) (c : PicklsLinterConfig),
      getField m "args" = none → decodePicklsLinterConfig (Value.obj m) = some c →
      c.args = []) := by
  refine ⟨?_, ?_, ?_, ?_, ?_⟩
  · intro m h
    simp [decodePicklsLinterConfig, Value.asObj, bind_some_eq, reqField, h]
  · intro m h
    simp [decodePicklsLinterConfig, Value.asObj, bind_some_eq, reqField, h,
      bind_const_none]
  · intro m h
    simp [decodePicklsLinterConfig, Value.asObj, bind_some_eq, reqField, h,
      bind_const_none]
  · intro m h
    simp [decodePicklsLinterConfig, Value.asObj, bind_some_eq, reqField, h,
      bind_const_none]
  · intro m c h hdec
    simp only [decodePicklsLinterConfig, Value.asObj, bind_some_eq, defField, h,
      Option.bind_eq_some] at hdec
    obtain ⟨p, -, u, -, pat, -, fm, -, lm, -, scm, -, ecm, -, sm, -, dm, -,
      st, -, hfin⟩ := hdec
    cases hfin
    rfl

/-- C10 witness: the required-fields theorem applied at the empty linter
document and at a linter document without `args`. -/
theorem spec_claim_c10_witness :
    decodePicklsLinterConfig (Value.obj []) = none
    ∧ ({ program := "flake8", args := [], use_stdin := true,
         pattern := "^(.*)$", filename_match := none, line_match := 1,
         start_col_match := none, end_col_match := none, severity_match := none,
         description_match := none, use_stderr := false } :
      PicklsLinterConfig).args = [] :=
  ⟨spec_claim_c10_linter_required_fields.1 [] rfl,
   spec_claim_c10_linter_required_fields.2.2.2.2 sampleLinterDoc _ rfl rfl⟩

/-- C8 witness: the sentinel theorem instantiated at the positive index 4. -/
theorem spec_claim_c8_witness :
    ¬(some (-1) : Option Int) = some (((3 : Nat) : Int) + 1) :=
  spec_claim_c8_description_sentinel.2.1 3
